import Mathlib

/-!
Shallow embedding of the filesystem-to-topic mirroring policy of
`src/missing-topic-handler.ts` (class `CDNHandler` and the listener built in
`mapTopicPath` / `main`).

Modelling choices, line by line against the source:

* The tracked `Set<string>` of topic paths (`CDNHandler.topics`) is a
  `Finset String`.
* `readFileSync` and `JSON.parse` are external builtins; they are supplied as
  an environment `Env`.  `readFileSync` either yields content, throws an error
  with `errno == -2` (ENOENT, "no such file"), or throws some other I/O error
  (`errno ≠ -2`); `JSON.parse` either yields a JSON value or throws a
  `SyntaxError` (whose `errno` is `undefined`, so `err.errno == -2` is false).
* Every server call (`session.topicUpdate.set`, `session.topics.remove`) is an
  `await` point.  JavaScript runs an async function synchronously up to the
  first `await` and runs the continuation only when the awaited promise
  settles.  Each handler is therefore split into the synchronous phase (which
  records the server operations it issues and an optional pending
  continuation) and a resolve step applied when the promise settles.
* Log calls through the `logging` loggers are recorded as `LogEvent`s with
  their level; `console.log` writes to stdout and is not part of the log
  taxonomy, so it is not recorded.
-/

namespace TopicMirror

/-- A JSON value, the payload type of `JSON.parse` / `diffusion.datatypes.json()`. -/
inductive Json where
  | null
  | bool (b : Bool)
  | num (n : Int)
  | str (s : String)
  | arr (elems : List Json)
  | obj (fields : List (String × Json))

/-- `diffusion.topics.TopicType`; only `JSON` is used by the mirror. -/
inductive TopicType where
  | JSON
  | BINARY
  | STRING
  | INT64
  | DOUBLE
deriving DecidableEq

/-- `diffusion.topics.TopicSpecification`: a topic type plus properties. -/
structure TopicSpecification where
  topicType : TopicType
  properties : List (String × String)
deriving DecidableEq

/-- `CDNHandler.defaultTopicSpec`: a JSON topic with an automatic-removal
policy of "when subscriptions < 1 for 1m". -/
def defaultTopicSpec : TopicSpecification :=
  ⟨TopicType.JSON, [("REMOVAL", "when subscriptions < 1 for 1m")]⟩

/-- Outcome of `readFileSync(path)`: content, ENOENT (`errno == -2`), or any
other I/O error (`errno ≠ -2`). -/
inductive ReadResult where
  | content (s : String)
  | errNoEnt
  | errOther
deriving DecidableEq

/-- The external world the mirror calls into: the file system
(`readFileSync`) and the JSON parser (`JSON.parse`, `none` = `SyntaxError`). -/
structure Env where
  read : String → ReadResult
  parse : String → Option Json

/-- Levels of the `logging` loggers used by the source. -/
inductive LogLevel where
  | info
  | warn
  | error
deriving DecidableEq

/-- One logger call, with its level and message. -/
structure LogEvent where
  level : LogLevel
  msg : String
deriving DecidableEq

/-- A server-side topic mutation issued over the session:
`session.topicUpdate.set(path, json, value, spec)` or
`session.topics.remove(path)`. -/
inductive ServerOp where
  | set (path : String) (value : Json) (spec : TopicSpecification)
  | remove (path : String)

/-- The topic path a server operation acts on. -/
def opPath : ServerOp → String
  | .set p _ _ => p
  | .remove p => p

/-- The tracked set of topic paths (`CDNHandler.topics`, a JS `Set<string>`). -/
abbrev TopicSet := Finset String

/-- `session.notifications.TopicNotificationType`: the four notification
kinds of the SDK enum. -/
inductive TopicNotificationType where
  | ADDED
  | REMOVED
  | SELECTED
  | DESELECTED
deriving DecidableEq

/-- The `onTopicNotification` callback of the listener built in
`mapTopicPath`: `ADDED`/`SELECTED` call `result.add(path)`,
`REMOVED`/`DESELECTED` call `result.delete(path)`.  The `switch` has no other
cases. -/
def onTopicNotification (topics : TopicSet) (path : String)
    (t : TopicNotificationType) : TopicSet :=
  match t with
  | .ADDED => insert path topics
  | .REMOVED => topics.erase path
  | .SELECTED => insert path topics
  | .DESELECTED => topics.erase path

/-- Result of running `CDNHandler.setTopic(path)` synchronously up to its
`await`: the server operations issued, the logger calls made, and the pending
continuation (`some path` when `session.topicUpdate.set` was issued and
`this.topics.add(path)` is waiting on its resolution). -/
structure SetTopicStart where
  ops : List ServerOp
  logs : List LogEvent
  pending : Option String

/-- `CDNHandler.setTopic` up to its `await`: read the file, parse it as JSON,
and issue the topic write.  A read failing with `errno == -2` is logged as a
warning; any other read error or a `JSON.parse` failure is logged at error
level (a `SyntaxError` has no `errno`, so `err.errno == -2` is false).  The
tracked set is untouched in this phase: `this.topics.add(path)` runs only
after the awaited write resolves. -/
def setTopicStart (env : Env) (path : String) : SetTopicStart :=
  match env.read path with
  | .content c =>
      match env.parse c with
      | some v => ⟨[ServerOp.set path v defaultTopicSpec], [], some path⟩
      | none => ⟨[], [⟨LogLevel.error, "SyntaxError: Unexpected token in JSON"⟩], none⟩
  | .errNoEnt =>
      ⟨[], [⟨LogLevel.warn, "Cannot satisfy missing topic " ++ path ++ ", no existing file"⟩], none⟩
  | .errOther =>
      ⟨[], [⟨LogLevel.error, "I/O error reading " ++ path⟩], none⟩

/-- Continuation of `setTopic` after `session.topicUpdate.set` settles:
on resolution `this.topics.add(path)` runs; on rejection the `catch` block
logs at error level (the rejection has no `errno`). -/
def setTopicResolve (topics : TopicSet) (path : String) (ok : Bool) :
    TopicSet × List LogEvent :=
  if ok then (insert path topics, [])
  else (topics, [⟨LogLevel.error, "topic update failed for " ++ path⟩])

/-- A completed run: final tracked set, server operations issued, logs. -/
structure RunResult where
  topics : TopicSet
  ops : List ServerOp
  logs : List LogEvent

/-- A whole run of `setTopic(path)`: the synchronous phase followed, when a
write was issued, by its settling (`writeOk` says whether the server write
resolved or rejected). -/
def setTopicRun (env : Env) (topics : TopicSet) (path : String)
    (writeOk : Bool) : RunResult :=
  let r := setTopicStart env path
  match r.pending with
  | some q =>
      let s := setTopicResolve topics q writeOk
      ⟨s.1, r.ops, r.logs ++ s.2⟩
  | none => ⟨topics, r.ops, r.logs⟩

/-- Continuation of `CDNHandler.unsetTopic` after `session.topics.remove`
settles: on resolution `this.topics.delete(path)` runs; on rejection the
`delete` never runs (the rejection is unhandled). -/
def unsetTopicResolve (topics : TopicSet) (path : String) (ok : Bool) : TopicSet :=
  if ok then topics.erase path else topics

/-- Result of one synchronous callback dispatch: the tracked set, the server
operations issued, the logger calls, and the pending continuations
(`pendingSet` = an in-flight `topicUpdate.set` whose resolution will add the
path; `pendingRemove` = an in-flight `topics.remove` whose resolution will
delete the path). -/
structure CallbackResult where
  topics : TopicSet
  ops : List ServerOp
  logs : List LogEvent
  pendingSet : Option String
  pendingRemove : Option String

/-- The watcher's `'change'` callback: `if (this.topics.has(path))` then
`this.setTopic(path)` (run to its `await`), else nothing. -/
def onChange (env : Env) (topics : TopicSet) (path : String) : CallbackResult :=
  if path ∈ topics then
    let r := setTopicStart env path
    ⟨topics, r.ops, r.logs, r.pending, none⟩
  else ⟨topics, [], [], none, none⟩

/-- The watcher's `'unlink'` callback: `if (this.topics.has(path))` then
`this.unsetTopic(path)`, which issues `session.topics.remove(path)` and
suspends; `this.topics.delete(path)` is still pending when the callback
returns. -/
def onUnlink (topics : TopicSet) (path : String) : CallbackResult :=
  if path ∈ topics then ⟨topics, [ServerOp.remove path], [], none, some path⟩
  else ⟨topics, [], [], none, none⟩

/-- A whole run of the `'change'` callback: the callback followed, when a
write was issued, by the settling of that write. -/
def onChangeRun (env : Env) (topics : TopicSet) (path : String)
    (writeOk : Bool) : RunResult :=
  let r := onChange env topics path
  match r.pendingSet with
  | some q =>
      let s := setTopicResolve r.topics q writeOk
      ⟨s.1, r.ops, r.logs ++ s.2⟩
  | none => ⟨r.topics, r.ops, r.logs⟩

/-- A whole run of the `'unlink'` callback: the callback followed, when a
removal was issued, by the settling of that removal. -/
def onUnlinkRun (topics : TopicSet) (path : String) (removeOk : Bool) : RunResult :=
  let r := onUnlink topics path
  match r.pendingRemove with
  | some q => ⟨unsetTopicResolve r.topics q removeOk, r.ops, r.logs⟩
  | none => ⟨r.topics, r.ops, r.logs⟩

/-- `CDNHandler.handleMissingTopic(path)`: calls `this.setTopic(path)`
directly, with no membership check on the tracked set. -/
def handleMissingTopic (env : Env) (topics : TopicSet) (path : String) : CallbackResult :=
  let r := setTopicStart env path
  ⟨topics, r.ops, r.logs, r.pending, none⟩

/-- Result of the `onMissingTopic` callback registered in `main`:
a `CallbackResult` plus whether `notification.proceed()` was invoked. -/
structure MissingTopicResult where
  topics : TopicSet
  ops : List ServerOp
  logs : List LogEvent
  pendingSet : Option String
  proceeded : Bool

/-- The `onMissingTopic` callback of the handler registered in `main` on
`cdnHandler.pathPrefix`: logs the request at info level, calls
`cdnHandler.handleMissingTopic(notification.path)` (not awaited), and then
unconditionally calls `notification.proceed()`. -/
def onMissingTopic (env : Env) (topics : TopicSet) (path : String) : MissingTopicResult :=
  let r := handleMissingTopic env topics path
  ⟨r.topics, r.ops,
    ⟨LogLevel.info, "Missing topic notification: path=" ++ path⟩ :: r.logs,
    r.pendingSet, true⟩

/-- Tagged union of the events the mirror reacts to, as delivered by its
sources: the filesystem watcher (`watch(pathPrefix)`), the missing-topic
handler (registered on `cdnHandler.pathPrefix`), and the topic-notification
listener (selector `?path//`). -/
inductive MirrorEvent where
  | fsChange (path : String)
  | fsUnlink (path : String)
  | missingTopicRequest (path : String)
  | notified (path : String) (t : TopicNotificationType)
deriving DecidableEq

/-- The path an event is about. -/
def eventPath : MirrorEvent → String
  | .fsChange p => p
  | .fsUnlink p => p
  | .missingTopicRequest p => p
  | .notified p _ => p

/-- One synchronous dispatch of the mirror on an event. -/
def mirrorStep (env : Env) (topics : TopicSet) : MirrorEvent → CallbackResult
  | .fsChange p => onChange env topics p
  | .fsUnlink p => onUnlink topics p
  | .missingTopicRequest p =>
      let r := onMissingTopic env topics p
      ⟨r.topics, r.ops, r.logs, r.pendingSet, none⟩
  | .notified p t => ⟨onTopicNotification topics p t, [], [], none, none⟩

/-- `p` lies under the mirror root `root`: it is the root itself or a
descendant path `root/...`.  The watcher is scoped to `watch(root)`, the
missing-topic handler is registered on `root`, and the notification selector
is `?root//` (root and all descendants), so every delivered event path
satisfies this. -/
def isUnder (root p : String) : Bool :=
  p == root || List.isPrefixOf (root.data ++ ['/']) p.data

/-- The file content `{"x":1}` of the spec scenario. -/
def jsonXContent : String := "\x7b\"x\":1\x7d"

/-- A concrete environment: file `cdn/a.json` holds the text `1`; every other
path is absent; only the text `1` parses, to the JSON number `1`. -/
def envA : Env :=
  ⟨fun q => if q = "cdn/a.json" then ReadResult.content "1" else ReadResult.errNoEnt,
   fun c => if c = "1" then some (Json.num 1) else none⟩

/-- A concrete environment for the `cdn/b.json` scenario: file `cdn/b.json`
holds the text `\x7b"x":1\x7d`, which parses to the JSON object with field
`x` mapped to `1`; every other path is absent. -/
def envB : Env :=
  ⟨fun q => if q = "cdn/b.json" then ReadResult.content jsonXContent else ReadResult.errNoEnt,
   fun c => if c = jsonXContent then some (Json.obj [("x", Json.num 1)]) else none⟩

/-- A concrete environment with a malformed backing file: `cdn/a.json` exists
but its content parses as JSON nowhere. -/
def envBad : Env :=
  ⟨fun q => if q = "cdn/a.json" then ReadResult.content "nonsense" else ReadResult.errNoEnt,
   fun _ => none⟩

/-! Theorems.  Each claim of the specification is settled below against the
embedding above. -/

/-- C1: for a path under the mirror root, when the watcher's `'change'`
callback reaches `setTopic` and the call completes successfully (the path was
tracked, the file read yields content `c`, `JSON.parse` yields `v`, and the
awaited server write resolves), the path is a member of the tracked set
afterwards and the value written to the topic is exactly `v`, the JSON parse
of the file content read at the time of the call. -/
theorem fileChanged_success_tracks_path_and_writes_parsed_content
    (env : Env) (topics : TopicSet) (p c : String) (v : Json)
    (hmem : p ∈ topics)
    (hread : env.read p = ReadResult.content c)
    (hparse : env.parse c = some v) :
    p ∈ (onChangeRun env topics p true).topics ∧
    (onChangeRun env topics p true).ops = [ServerOp.set p v defaultTopicSpec] := by
  simp [onChangeRun, onChange, setTopicStart, hread, hparse, hmem, setTopicResolve]

/-- Witness for C1 at `cdn/a.json` in `envA` with the tracked set
`{cdn/a.json}`. -/
theorem fileChanged_success_witness :
    "cdn/a.json" ∈ ({"cdn/a.json"} : TopicSet) ∧
    envA.read ("cdn/a.json") = ReadResult.content "1" ∧
    envA.parse ("1") = some (Json.num 1) ∧
    ("cdn/a.json" ∈ (onChangeRun envA {"cdn/a.json"} ("cdn/a.json") true).topics ∧
      (onChangeRun envA {"cdn/a.json"} ("cdn/a.json") true).ops
        = [ServerOp.set ("cdn/a.json") (Json.num 1) defaultTopicSpec]) :=
  ⟨by decide, by rfl, by rfl,
    fileChanged_success_tracks_path_and_writes_parsed_content envA {"cdn/a.json"}
      ("cdn/a.json") ("1") (Json.num 1) (by decide) (by rfl) (by rfl)⟩

/-- C5: a missing-topic request for a path with no backing file (the read
throws with `errno == -2`) is still resolved — `notification.proceed()` is
called — no topic write is issued or left pending, the tracked set is
untouched, and the logs are the info line of `onMissingTopic` followed by the
warning from `setTopic`; nothing propagates to the caller. -/
theorem missingTopic_absent_file_proceeds_without_create
    (env : Env) (topics : TopicSet) (p : String)
    (h : env.read p = ReadResult.errNoEnt) :
    (onMissingTopic env topics p).proceeded = true ∧
    (onMissingTopic env topics p).ops = [] ∧
    (onMissingTopic env topics p).pendingSet = none ∧
    (onMissingTopic env topics p).topics = topics ∧
    (onMissingTopic env topics p).logs
      = [⟨LogLevel.info, "Missing topic notification: path=" ++ p⟩,
         ⟨LogLevel.warn, "Cannot satisfy missing topic " ++ p ++ ", no existing file"⟩] := by
  simp [onMissingTopic, handleMissingTopic, setTopicStart, h]

/-- Witness for C5 at `cdn/c.json` in `envA`, where no such file exists. -/
theorem missingTopic_absent_file_witness :
    envA.read ("cdn/c.json") = ReadResult.errNoEnt ∧
    ((onMissingTopic envA {"cdn/a.json"} ("cdn/c.json")).proceeded = true ∧
      (onMissingTopic envA {"cdn/a.json"} ("cdn/c.json")).ops = [] ∧
      (onMissingTopic envA {"cdn/a.json"} ("cdn/c.json")).pendingSet = none ∧
      (onMissingTopic envA {"cdn/a.json"} ("cdn/c.json")).topics = {"cdn/a.json"} ∧
      (onMissingTopic envA {"cdn/a.json"} ("cdn/c.json")).logs
        = [⟨LogLevel.info, "Missing topic notification: path=" ++ "cdn/c.json"⟩,
           ⟨LogLevel.warn, "Cannot satisfy missing topic " ++ "cdn/c.json" ++ ", no existing file"⟩]) :=
  ⟨by rfl,
    missingTopic_absent_file_proceeds_without_create envA {"cdn/a.json"} ("cdn/c.json") (by rfl)⟩

/-- C6: when the backing file exists but its content does not parse as JSON,
a whole run of `setTopic` leaves the tracked set unchanged, issues no topic
write or removal, leaves nothing pending, and logs exactly one error-level
event: the operation is abandoned without crashing. -/
theorem malformed_json_abandons_without_touching_topic
    (env : Env) (topics : TopicSet) (p c : String) (writeOk : Bool)
    (hr : env.read p = ReadResult.content c)
    (hp : env.parse c = none) :
    (setTopicRun env topics p writeOk).topics = topics ∧
    (setTopicRun env topics p writeOk).ops = [] ∧
    (setTopicStart env p).pending = none ∧
    (setTopicRun env topics p writeOk).logs
      = [⟨LogLevel.error, "SyntaxError: Unexpected token in JSON"⟩] := by
  simp [setTopicRun, setTopicStart, hr, hp]

/-- Witness for C6 at `cdn/a.json` in `envBad`, whose content parses nowhere. -/
theorem malformed_json_witness :
    envBad.read ("cdn/a.json") = ReadResult.content "nonsense" ∧
    envBad.parse ("nonsense") = none ∧
    ((setTopicRun envBad {"cdn/a.json"} ("cdn/a.json") true).topics = {"cdn/a.json"} ∧
      (setTopicRun envBad {"cdn/a.json"} ("cdn/a.json") true).ops = [] ∧
      (setTopicStart envBad ("cdn/a.json")).pending = none ∧
      (setTopicRun envBad {"cdn/a.json"} ("cdn/a.json") true).logs
        = [⟨LogLevel.error, "SyntaxError: Unexpected token in JSON"⟩]) :=
  ⟨by rfl, by rfl,
    malformed_json_abandons_without_touching_topic envBad {"cdn/a.json"}
      ("cdn/a.json") ("nonsense") true (by rfl) (by rfl)⟩

/-- C10: on any failure inside `setTopic` — the read throwing (file absent or
other I/O error), the parse throwing, or the awaited server write rejecting —
the tracked set is left exactly as it was: `this.topics.add(path)` runs only
after the write has resolved successfully. -/
theorem setTopic_failure_leaves_tracked_set_unchanged
    (env : Env) (topics : TopicSet) (p : String) (writeOk : Bool)
    (h : env.read p = ReadResult.errNoEnt ∨ env.read p = ReadResult.errOther ∨
      (∃ c, env.read p = ReadResult.content c ∧ env.parse c = none) ∨
      writeOk = false) :
    (setTopicRun env topics p writeOk).topics = topics := by
  rcases h with h | h | ⟨c, hc, hp⟩ | h
  · simp [setTopicRun, setTopicStart, h]
  · simp [setTopicRun, setTopicStart, h]
  · simp [setTopicRun, setTopicStart, hc, hp]
  · subst h
    cases hp : (setTopicStart env p).pending <;>
      simp [setTopicRun, hp, setTopicResolve]

/-- Witness for C10: in `envA` the write for the tracked file `cdn/a.json`
is issued but the server rejects it; the tracked set is unchanged. -/
theorem setTopic_failure_witness :
    (envA.read ("cdn/a.json") = ReadResult.errNoEnt ∨
      envA.read ("cdn/a.json") = ReadResult.errOther ∨
      (∃ c, envA.read ("cdn/a.json") = ReadResult.content c ∧ envA.parse c = none) ∨
      false = false) ∧
    (setTopicRun envA {"cdn/a.json"} ("cdn/a.json") false).topics = {"cdn/a.json"} :=
  ⟨Or.inr (Or.inr (Or.inr rfl)),
    setTopic_failure_leaves_tracked_set_unchanged envA {"cdn/a.json"} ("cdn/a.json") false
      (Or.inr (Or.inr (Or.inr rfl)))⟩

/-- C2 counterexample: with tracked set `{cdn/a.json}` and the new file
`cdn/b.json` holding `\x7b"x":1\x7d` on disk, delivering the `'change'` event
for `cdn/b.json` creates no topic and adds nothing: the callback's membership
guard `this.topics.has(path)` fails for the untracked path, so the run issues
no server operation and the tracked set stays `{cdn/a.json}` — not
`{cdn/a.json, cdn/b.json}` as the claim states. -/
theorem untracked_new_file_change_ignored_counterexample :
    (onChangeRun envB {"cdn/a.json"} ("cdn/b.json") true).ops = [] ∧
    (onChangeRun envB {"cdn/a.json"} ("cdn/b.json") true).topics = {"cdn/a.json"} ∧
    "cdn/b.json" ∉ (onChangeRun envB {"cdn/a.json"} ("cdn/b.json") true).topics :=
  ⟨by rfl, by decide, by decide⟩

/-- C2 amended: the change event creates `cdn/b.json` only when the path is
already in the tracked set.  With tracked set `{cdn/a.json, cdn/b.json}`, the
run issues the topic write with value `\x7b"x":1\x7d` (the object mapping `x`
to `1`) under the default specification — a JSON topic with removal policy
"when subscriptions < 1 for 1m" — and the tracked set remains
`{cdn/a.json, cdn/b.json}`. -/
theorem tracked_new_file_change_creates_topic :
    (onChangeRun envB {"cdn/a.json", "cdn/b.json"} ("cdn/b.json") true).ops
      = [ServerOp.set ("cdn/b.json") (Json.obj [("x", Json.num 1)]) defaultTopicSpec] ∧
    (onChangeRun envB {"cdn/a.json", "cdn/b.json"} ("cdn/b.json") true).topics
      = {"cdn/a.json", "cdn/b.json"} ∧
    defaultTopicSpec = ⟨TopicType.JSON, [("REMOVAL", "when subscriptions < 1 for 1m")]⟩ :=
  ⟨by rfl, by decide, by rfl⟩

/-- C3 counterexample: with tracked set `{cdn/a.json}`, the `'unlink'`
callback issues the server-side removal and suspends at its `await`; at that
point — the removal call issued but not yet resolved — `cdn/a.json` is still
a member of the tracked set, contradicting the claim that membership is gone
regardless of whether `session.topics.remove` has resolved. -/
theorem unlink_membership_persists_while_remove_pending_counterexample :
    (onUnlink {"cdn/a.json"} ("cdn/a.json")).ops = [ServerOp.remove ("cdn/a.json")] ∧
    (onUnlink {"cdn/a.json"} ("cdn/a.json")).pendingRemove = some ("cdn/a.json") ∧
    "cdn/a.json" ∈ (onUnlink {"cdn/a.json"} ("cdn/a.json")).topics :=
  ⟨by rfl, by rfl, by decide⟩

/-- C3 amended: for a tracked path the `'unlink'` callback issues the
server-side removal, but `this.topics.delete(path)` runs only in the
continuation after `session.topics.remove(path)` resolves: while the removal
is in flight the path is still a member, and after the removal resolves the
path is no longer a member. -/
theorem unlink_clears_membership_after_remove_resolves
    (topics : TopicSet) (p : String) (hmem : p ∈ topics) :
    (onUnlink topics p).ops = [ServerOp.remove p] ∧
    p ∈ (onUnlink topics p).topics ∧
    p ∉ (onUnlinkRun topics p true).topics := by
  simp [onUnlink, onUnlinkRun, unsetTopicResolve, hmem]

/-- Witness for the amended C3 at `cdn/a.json` with tracked set
`{cdn/a.json}`. -/
theorem unlink_clears_membership_witness :
    "cdn/a.json" ∈ ({"cdn/a.json"} : TopicSet) ∧
    ((onUnlink {"cdn/a.json"} ("cdn/a.json")).ops = [ServerOp.remove ("cdn/a.json")] ∧
      "cdn/a.json" ∈ (onUnlink {"cdn/a.json"} ("cdn/a.json")).topics ∧
      "cdn/a.json" ∉ (onUnlinkRun {"cdn/a.json"} ("cdn/a.json") true).topics) :=
  ⟨by decide,
    unlink_clears_membership_after_remove_resolves {"cdn/a.json"} ("cdn/a.json") (by decide)⟩

/-- C4 counterexample: `handleMissingTopic` performs no membership check.
With the empty tracked set — `cdn/a.json` is not a member — it still issues
the server-side topic write for `cdn/a.json`, so not every mutating operation
checks membership of the path in the tracked set before acting. -/
theorem handleMissingTopic_acts_without_membership_check_counterexample :
    "cdn/a.json" ∉ (∅ : TopicSet) ∧
    (handleMissingTopic envA ∅ ("cdn/a.json")).ops
      = [ServerOp.set ("cdn/a.json") (Json.num 1) defaultTopicSpec] :=
  ⟨by decide, by rfl⟩

/-- C4 amended: the two watcher callbacks do check membership before acting —
for an untracked path neither issues any server operation nor leaves one
pending — but `handleMissingTopic` calls `setTopic` without a membership
check, so the missing-topic path can issue a create for an untracked path. -/
theorem watcher_callbacks_check_membership_before_acting
    (env : Env) (topics : TopicSet) (p : String) (h : p ∉ topics) :
    (onChange env topics p).ops = [] ∧
    (onChange env topics p).pendingSet = none ∧
    (onUnlink topics p).ops = [] ∧
    (onUnlink topics p).pendingRemove = none := by
  simp [onChange, onUnlink, h]

/-- Witness for the amended C4 at `cdn/b.json`, untracked in `{cdn/a.json}`. -/
theorem watcher_callbacks_check_membership_witness :
    "cdn/b.json" ∉ ({"cdn/a.json"} : TopicSet) ∧
    ((onChange envA {"cdn/a.json"} ("cdn/b.json")).ops = [] ∧
      (onChange envA {"cdn/a.json"} ("cdn/b.json")).pendingSet = none ∧
      (onUnlink {"cdn/a.json"} ("cdn/b.json")).ops = [] ∧
      (onUnlink {"cdn/a.json"} ("cdn/b.json")).pendingRemove = none) :=
  ⟨by decide,
    watcher_callbacks_check_membership_before_acting envA {"cdn/a.json"} ("cdn/b.json") (by decide)⟩

/-- C7: running the `'unlink'` callback a second time after a first complete
run (callback plus resolution of the removal) issues no second server-side
removal and leaves nothing pending: after the first run the path is no longer
a member, so the membership guard fails; nothing throws, the model being
total. -/
theorem unlink_twice_issues_no_second_removal (topics : TopicSet) (p : String) :
    (onUnlink (onUnlinkRun topics p true).topics p).ops = [] ∧
    (onUnlink (onUnlinkRun topics p true).topics p).pendingRemove = none := by
  by_cases h : p ∈ topics <;>
    simp [onUnlinkRun, onUnlink, unsetTopicResolve, h]

/-- C8: the `onTopicNotification` listener inserts the notified path on
`ADDED` and on `SELECTED`, and removes it on `REMOVED` and on `DESELECTED`;
these four constructors are the whole of the SDK's notification-kind enum, so
no other kind mutates the set. -/
theorem notification_kinds_drive_tracked_set (topics : TopicSet) (p : String) :
    onTopicNotification topics p TopicNotificationType.ADDED = insert p topics ∧
    onTopicNotification topics p TopicNotificationType.SELECTED = insert p topics ∧
    onTopicNotification topics p TopicNotificationType.REMOVED = topics.erase p ∧
    onTopicNotification topics p TopicNotificationType.DESELECTED = topics.erase p := by
  simp [onTopicNotification]

/-- Every server operation and pending continuation produced by the
synchronous phase of `setTopic(path)` targets `path` itself. -/
theorem setTopicStart_targets_only_path (env : Env) (path : String) :
    (∀ op ∈ (setTopicStart env path).ops, opPath op = path) ∧
    (∀ q, (setTopicStart env path).pending = some q → q = path) := by
  cases hr : env.read path with
  | content c =>
      cases hp : env.parse c with
      | some v => simp [setTopicStart, hr, hp, opPath]
      | none => simp [setTopicStart, hr, hp]
  | errNoEnt => simp [setTopicStart, hr]
  | errOther => simp [setTopicStart, hr]

/-- One dispatch of the mirror is local to the event's path: every server
operation it issues and every continuation it leaves pending targets the
event's path, and tracked-set membership at any other path is unchanged. -/
theorem mirrorStep_local_to_event_path (env : Env) (topics : TopicSet) (e : MirrorEvent) :
    (∀ op ∈ (mirrorStep env topics e).ops, opPath op = eventPath e) ∧
    (∀ q, (mirrorStep env topics e).pendingSet = some q → q = eventPath e) ∧
    (∀ q, (mirrorStep env topics e).pendingRemove = some q → q = eventPath e) ∧
    (∀ q, q ≠ eventPath e → (q ∈ (mirrorStep env topics e).topics ↔ q ∈ topics)) := by
  cases e with
  | fsChange p =>
      obtain ⟨h1, h2⟩ := setTopicStart_targets_only_path env p
      by_cases h : p ∈ topics
      · simp [mirrorStep, onChange, eventPath, h]
        exact ⟨h1, h2⟩
      · simp [mirrorStep, onChange, eventPath, h]
  | fsUnlink p =>
      by_cases h : p ∈ topics <;>
        simp [mirrorStep, onUnlink, eventPath, opPath, h]
  | missingTopicRequest p =>
      obtain ⟨h1, h2⟩ := setTopicStart_targets_only_path env p
      simp [mirrorStep, onMissingTopic, handleMissingTopic, eventPath]
      exact ⟨h1, h2⟩
  | notified p t =>
      cases t <;>
        exact ⟨by simp [mirrorStep], by simp [mirrorStep], by simp [mirrorStep],
          fun q hq => by
            simp [eventPath] at hq
            simp [mirrorStep, onTopicNotification, Finset.mem_insert, Finset.mem_erase, hq]⟩

/-- C9: for any path `p` not under the mirror root, no dispatch of the mirror
on a delivered event touches `p`: the watcher is scoped to `watch(root)`, the
missing-topic handler is registered on `root`, and the notification selector
is `?root//`, so every delivered event path lies under the root; the dispatch
issues server operations and pending continuations only at the event's own
path and changes tracked-set membership only there, hence never at `p`. -/
theorem no_operation_outside_mirror_root
    (env : Env) (topics : TopicSet) (e : MirrorEvent) (root p : String)
    (hev : isUnder root (eventPath e) = true)
    (hp : isUnder root p = false) :
    (∀ op ∈ (mirrorStep env topics e).ops, opPath op ≠ p) ∧
    (mirrorStep env topics e).pendingSet ≠ some p ∧
    (mirrorStep env topics e).pendingRemove ≠ some p ∧
    (p ∈ (mirrorStep env topics e).topics ↔ p ∈ topics) := by
  have hne : eventPath e ≠ p := by
    intro h
    rw [h] at hev
    rw [hev] at hp
    exact absurd hp (by simp)
  obtain ⟨h1, h2, h3, h4⟩ := mirrorStep_local_to_event_path env topics e
  refine ⟨fun op hop heq => ?_, fun hc => ?_, fun hc => ?_, h4 p (Ne.symm hne)⟩
  · exact hne ((h1 op hop).symm.trans heq)
  · exact hne (h2 p hc).symm
  · exact hne (h3 p hc).symm

/-- Witness for C9: the change event for `cdn/a.json` under root `cdn`, and
the outside path `other/x`. -/
theorem no_operation_outside_mirror_root_witness :
    isUnder ("cdn") (eventPath (MirrorEvent.fsChange ("cdn/a.json"))) = true ∧
    isUnder ("cdn") ("other/x") = false ∧
    ((∀ op ∈ (mirrorStep envA {"cdn/a.json"} (MirrorEvent.fsChange ("cdn/a.json"))).ops,
        opPath op ≠ "other/x") ∧
      (mirrorStep envA {"cdn/a.json"} (MirrorEvent.fsChange ("cdn/a.json"))).pendingSet
        ≠ some ("other/x") ∧
      (mirrorStep envA {"cdn/a.json"} (MirrorEvent.fsChange ("cdn/a.json"))).pendingRemove
        ≠ some ("other/x") ∧
      ("other/x" ∈ (mirrorStep envA {"cdn/a.json"} (MirrorEvent.fsChange ("cdn/a.json"))).topics
        ↔ "other/x" ∈ ({"cdn/a.json"} : TopicSet))) :=
  ⟨by decide, by decide,
    no_operation_outside_mirror_root envA {"cdn/a.json"} (MirrorEvent.fsChange ("cdn/a.json"))
      ("cdn") ("other/x") (by decide) (by decide)⟩

end TopicMirror
